import Mathlib

/-!
# lys `context_setup.h`: the diagnostic checker and context setup

A shallow embedding of `accelerate/tunnel/lib/github.com/diku-dk/lys/context_setup.h`.
The header defines `_fut_check` and declares `lys_setup_futhark_context` and
`lys_wall_time`, whose bodies live elsewhere; the setup sequence is modelled from its
specification.

* C strings are `String`s, C `int`s are `Int`s (no arithmetic is done on them, so
  nothing can overflow; every theorem holds in particular for the 32-bit range).
* The process is a record of what has been written to the two standard streams;
  a call either returns to its caller or ends the process through `exit`.
* `fprintf` is an interpreter of the format string on its argument list, with the
  two conversions the header uses (`%s` and `%d`).
* `futhark_context_get_error` comes from the generated program header and is a
  parameter: any function from the context's state to a text and a new state.
-/


namespace Lys

/-! ## The C library: `%d`, `fprintf`, `exit` -/

/-- Decimal digits of `n`, most significant first; `fuel` bounds the number of digits. -/
def decDigits : Nat → Nat → List Char
  | 0, _ => []
  | fuel + 1, n =>
    if n < 10 then [Nat.digitChar n]
    else decDigits fuel (n / 10) ++ [Nat.digitChar (n % 10)]

/-- Base-10 rendering of a natural number. -/
def decimalNat (n : Nat) : List Char := decDigits (n + 1) n

/-- The characters `%d` produces for a C `int`: a minus sign for a negative value,
then the decimal digits of the magnitude. -/
def decimalChars (i : Int) : List Char :=
  if i < 0 then '-' :: decimalNat i.natAbs else decimalNat i.natAbs

/-- Signed base-10 rendering as a string. -/
def decimal (i : Int) : String := ⟨decimalChars i⟩

/-- Reading a digit string back as a number. -/
def digitsValue (cs : List Char) : Nat :=
  cs.foldl (fun acc c => acc * 10 + (c.toNat - 48)) 0

/-- An argument of a variadic `fprintf` call. -/
inductive Arg where
  | str (s : String)
  | int (i : Int)

/-- The text `fprintf` produces from a format string (as characters) and arguments:
`%s` copies a string argument, `%d` renders an `int` argument in decimal, every
other character is copied. -/
def formatChars : List Char → List Arg → List Char
  | [], _ => []
  | '%' :: 's' :: rest, Arg.str s :: args => s.data ++ formatChars rest args
  | '%' :: 'd' :: rest, Arg.int i :: args => decimalChars i ++ formatChars rest args
  | c :: rest, args => c :: formatChars rest args

/-- The text of `fprintf(stream, fmt, args...)`. -/
def format (fmt : String) (args : List Arg) : String := ⟨formatChars fmt.data args⟩

/-- Value of `EXIT_FAILURE` in `<stdlib.h>`. -/
def EXIT_FAILURE : Int := 1

/-! ## The process and the context -/

/-- What `_fut_check` needs from the generated program header (`PROGHEADER`):
`futhark_context_get_error`, which hands out the context's last-error text and may
change the context while doing so. -/
structure ProgHeader (Ctx : Type) where
  futhark_context_get_error : Ctx → String × Ctx

/-- State of the process as far as the header can touch it. -/
structure World (Ctx : Type) where
  /-- state of the object behind the `struct futhark_context *` -/
  ctx : Ctx
  /-- everything written to standard output so far -/
  stdout : String
  /-- everything written to standard error so far -/
  stderr : String
  /-- how many times `futhark_context_get_error` has been called so far -/
  get_error_calls : Nat

/-- How a call ends: control comes back to the caller, or the process ends with an
exit status. -/
inductive Outcome (σ : Type) where
  | returns (w : σ)
  | exits (status : Int) (w : σ)
deriving DecidableEq

/-- The state in which a call ended. -/
def Outcome.world {σ : Type} : Outcome σ → σ
  | .returns w => w
  | .exits _ w => w

/-- The exit status, when the call ended the process. -/
def Outcome.status {σ : Type} : Outcome σ → Option Int
  | .returns _ => none
  | .exits s _ => some s

/-- Calling `futhark_context_get_error(ctx)`. -/
def get_error {Ctx : Type} (hdr : ProgHeader Ctx) (w : World Ctx) : String × World Ctx :=
  let r := hdr.futhark_context_get_error w.ctx
  (r.1, { w with ctx := r.2, get_error_calls := w.get_error_calls + 1 })

/-- Calling `fprintf(stderr, fmt, args...)`. -/
def fprintf_stderr {Ctx : Type} (w : World Ctx) (fmt : String) (args : List Arg) : World Ctx :=
  { w with stderr := w.stderr ++ format fmt args }

/-! ## The diagnostic checker `_fut_check` -/

/-- The header's `_fut_check(ctx, res, file, line)`. -/
def _fut_check {Ctx : Type} (hdr : ProgHeader Ctx) (w : World Ctx) (res : Int)
    (file : String) (line : Int) : Outcome (World Ctx) :=
  if res != 0 then
    let e := get_error hdr w
    let w2 := fprintf_stderr e.2 "%s:%d: Futhark error %d: %s\n"
      [Arg.str file, Arg.int line, Arg.int res, Arg.str e.1]
    Outcome.exits EXIT_FAILURE w2
  else
    Outcome.returns w

/-- A caller making `n` calls `_fut_check(ctx, res, file, line)` one after the other;
a call is made only if the process is still running. -/
def fut_check_times {Ctx : Type} (hdr : ProgHeader Ctx) (w : World Ctx) (res : Int)
    (file : String) (line : Int) : Nat → Outcome (World Ctx)
  | 0 => Outcome.returns w
  | n + 1 =>
    match fut_check_times hdr w res file line n with
    | Outcome.returns w1 => _fut_check hdr w1 res file line
    | Outcome.exits s w1 => Outcome.exits s w1

/-- A context whose whole state is its pending last-error text; asking for the
text hands it out and leaves nothing pending. -/
def stubHeader : ProgHeader String where
  futhark_context_get_error := fun c => (c, "")

/-- A fresh process holding a stub context with the given pending error text. -/
def stubWorld (err : String) : World String :=
  { ctx := err, stdout := "", stderr := "", get_error_calls := 0 }

/-! ## Context setup `lys_setup_futhark_context` -/

/-- Modelled from the spec: the device-selection intent a Configuration holds (the
header declares `struct futhark_context_config` without its fields): the runtime's
default, a device-name substring, or an index chosen interactively. -/
inductive Selection where
  | default
  | byName (s : String)
  | byIndex (i : Nat)
deriving DecidableEq

/-- Modelled from the spec: the Configuration, the builder object that a context is
constructed from (its definition is in the generated program header, not in
`context_setup.h`). -/
structure Configuration where
  selection : Selection
deriving DecidableEq

/-- Modelled from the spec: the Execution Context, the live binding to a device (defined
in the generated program header): the configuration it was built from and the index of
the device it is bound to. -/
structure ExecutionContext where
  config : Configuration
  device : Nat
deriving DecidableEq

/-- Modelled from the spec: the underlying runtime, the opaque collaborator, as far as
the spec describes it: the names of the devices it enumerates and its default device. -/
structure Runtime where
  devices : List String
  default_device : Nat

/-- Modelled from the spec: the process state `lys_setup_futhark_context` works on (its
body is not in `context_setup.h`): the unread standard input and the caller's three result
variables, `none` being `NULL`. The texts written to the output streams are not
specified and are left out. -/
structure SetupWorld where
  stdin : String
  futcfg : Option Configuration
  futctx : Option ExecutionContext
  opencl_device_name : Option String
deriving DecidableEq

/-- Modelled from the spec: the substring match by which the runtime interprets a
device selector; `isSubstring s t` holds when `s` occurs in `t`. -/
def isSubstring (s t : List Char) : Bool :=
  t.tails.any (fun u => s.isPrefixOf u)

/-- Modelled from the spec: the runtime's resolution of a selection to a device index;
a name selects the first enumerated device whose name has it as a substring, an index
must be in range, and the default must exist. No device means the constructor fails. -/
def Runtime.bind (rt : Runtime) : Selection → Option Nat
  | .default => if rt.default_device < rt.devices.length then some rt.default_device else none
  | .byName s =>
    let i := rt.devices.findIdx (fun d => isSubstring s.data d.data)
    if i < rt.devices.length then some i else none
  | .byIndex i => if i < rt.devices.length then some i else none

/-- Modelled from the spec: step 3 of the Context Builder, the runtime's constructor of
an Execution Context from a Configuration; `none` is the fatal environment error. -/
def Runtime.construct (rt : Runtime) (cfg : Configuration) : Option ExecutionContext :=
  (rt.bind cfg.selection).map (fun i => { config := cfg, device := i })

/-- Modelled from the spec: the selection a non-interactive selector string stands for;
absent or empty means the default. -/
def selectionOf : Option String → Selection
  | none => .default
  | some s => if s = "" then .default else .byName s

/-- Modelled from the spec: the selection read from standard input, the first line of
the unread input. -/
def firstLine (input : String) : String := ⟨input.data.takeWhile (fun c => c != '\n')⟩

/-- Modelled from the spec: a numeric selection, a non-empty string of decimal digits
read as a number. -/
def parseNat (cs : List Char) : Option Nat :=
  if cs ≠ [] ∧ cs.all Char.isDigit = true then some (digitsValue cs) else none

/-- Modelled from the spec: the interactive selection read as a number, an optional
minus sign followed by decimal digits; anything else is non-numeric. -/
def parseIndex (cs : List Char) : Option Int :=
  match cs with
  | '-' :: rest => (parseNat rest).map (fun n => -(n : Int))
  | _ => (parseNat cs).map (fun n => (n : Int))

/-- Modelled from the spec: the Device Resolver (section 4.1) acting on the caller's
Configuration. Non-interactive: the selector string is passed through. Interactive: a
selection is read from standard input and must be an index in `[0, deviceCount)`;
otherwise the process exits with a failure status. -/
def resolveDevice (rt : Runtime) (deviceopt : Option String) (device_interactive : Bool)
    (w : SetupWorld) : Outcome SetupWorld :=
  if device_interactive then
    match parseIndex (firstLine w.stdin).data with
    | none => Outcome.exits EXIT_FAILURE w
    | some i =>
      if 0 ≤ i ∧ i < (rt.devices.length : Int) then
        Outcome.returns
          { w with
            stdin := ⟨(w.stdin.data.dropWhile (fun c => c != '\n')).drop 1⟩
            futcfg := w.futcfg.map (fun _ => { selection := .byIndex i.toNat }) }
      else Outcome.exits EXIT_FAILURE w
  else
    Outcome.returns { w with futcfg := w.futcfg.map (fun _ => { selection := selectionOf deviceopt }) }

/-- Modelled from the spec: `lys_setup_futhark_context(deviceopt, device_interactive,
&futcfg, &futctx, &opencl_device_name)`, declared in the header with its body elsewhere;
the four steps of the Context Builder (section 4.2). -/
def lys_setup_futhark_context (rt : Runtime) (deviceopt : Option String)
    (device_interactive : Bool) (w : SetupWorld) : Outcome SetupWorld :=
  -- 1. a new Configuration
  let w1 := { w with futcfg := some { selection := .default } }
  -- 2. the Device Resolver
  match resolveDevice rt deviceopt device_interactive w1 with
  | Outcome.exits s w2 => Outcome.exits s w2
  | Outcome.returns w2 =>
    -- 3. the Execution Context, from the Configuration
    match w2.futcfg.bind rt.construct with
    | none => Outcome.exits EXIT_FAILURE w2
    | some ctx =>
      -- 4. the bound device's name
      Outcome.returns { w2 with futctx := some ctx, opencl_device_name := rt.devices[ctx.device]? }

/-- A runtime with two devices. -/
def twoDevices : Runtime := { devices := ["cpu0", "gpu0"], default_device := 0 }

/-- The state before setup, with the given text waiting on standard input. -/
def freshSetup (input : String) : SetupWorld :=
  { stdin := input, futcfg := none, futctx := none, opencl_device_name := none }

/-! ## Lemmas on the decimal rendering -/

theorem digitChar_isDigit (d : Nat) (h : d < 10) : (Nat.digitChar d).isDigit = true := by
  interval_cases d <;> decide

theorem digitChar_toNat (d : Nat) (h : d < 10) : (Nat.digitChar d).toNat - 48 = d := by
  interval_cases d <;> decide

theorem decDigits_isDigit (fuel n : Nat) : ∀ c ∈ decDigits fuel n, c.isDigit = true := by
  induction fuel generalizing n with
  | zero => intro c hc; simp [decDigits] at hc
  | succ fuel ih =>
    intro c hc
    unfold decDigits at hc
    split at hc
    · rename_i hlt
      simp only [List.mem_singleton] at hc
      subst hc
      exact digitChar_isDigit n hlt
    · rcases List.mem_append.1 hc with h | h
      · exact ih _ c h
      · simp only [List.mem_singleton] at h
        subst h
        exact digitChar_isDigit _ (Nat.mod_lt _ (by decide))

theorem digitsValue_decDigits (fuel n : Nat) (h : n < fuel) :
    digitsValue (decDigits fuel n) = n := by
  induction fuel generalizing n with
  | zero => omega
  | succ fuel ih =>
    unfold decDigits
    split
    · rename_i hlt
      simp [digitsValue, digitChar_toNat n hlt]
    · rename_i hge
      have hrec := ih (n / 10) (by omega)
      have hd := digitChar_toNat (n % 10) (Nat.mod_lt _ (by decide))
      unfold digitsValue at hrec ⊢
      rw [List.foldl_append, hrec]
      simp only [List.foldl_cons, List.foldl_nil, hd]
      omega

theorem decimalNat_injective (m n : Nat) (h : decimalNat m = decimalNat n) : m = n := by
  have hm := digitsValue_decDigits (m + 1) m (by omega)
  have hn := digitsValue_decDigits (n + 1) n (by omega)
  unfold decimalNat at h
  rw [h] at hm
  omega

theorem decimalChars_mem (i : Int) : ∀ c ∈ decimalChars i, c = '-' ∨ c.isDigit = true := by
  intro c hc
  unfold decimalChars at hc
  split at hc
  · rcases List.mem_cons.1 hc with h | h
    · exact Or.inl h
    · exact Or.inr (decDigits_isDigit _ _ c h)
  · exact Or.inr (decDigits_isDigit _ _ c hc)

theorem decimalChars_no_colon (i : Int) : ':' ∉ decimalChars i := by
  intro h
  rcases decimalChars_mem i _ h with h | h
  · exact absurd h (by decide)
  · exact absurd h (by decide)

theorem decimalChars_no_newline (i : Int) : '\n' ∉ decimalChars i := by
  intro h
  rcases decimalChars_mem i _ h with h | h
  · exact absurd h (by decide)
  · exact absurd h (by decide)

theorem decimalChars_injective (i j : Int) (h : decimalChars i = decimalChars j) : i = j := by
  unfold decimalChars at h
  split at h <;> split at h
  · have := decimalNat_injective _ _ (List.cons.inj h).2
    omega
  · have hmem : '-' ∈ decimalNat j.natAbs := by rw [← h]; exact List.mem_cons_self _ _
    exact absurd (decDigits_isDigit _ _ _ hmem) (by decide)
  · have hmem : '-' ∈ decimalNat i.natAbs := by rw [h]; exact List.mem_cons_self _ _
    exact absurd (decDigits_isDigit _ _ _ hmem) (by decide)
  · have := decimalNat_injective _ _ h
    omega

theorem toDigitsCore_eq_decDigits (fuel n : Nat) (acc : List Char) (h : n < fuel) :
    Nat.toDigitsCore 10 fuel n acc = decDigits fuel n ++ acc := by
  induction fuel generalizing n acc with
  | zero => omega
  | succ fuel ih =>
    unfold Nat.toDigitsCore decDigits
    by_cases hlt : n < 10
    · have h0 : n / 10 = 0 := by omega
      have hm : n % 10 = n := by omega
      simp [hlt, h0, hm]
    · have h0 : n / 10 ≠ 0 := by omega
      simp only [h0, hlt, if_false]
      rw [ih (n / 10) _ (by omega)]
      simp

/-- The rendering agrees with the standard library's decimal `toString` on integers. -/
theorem decimal_eq_toString (i : Int) : decimal i = toString i := by
  cases i with
  | ofNat n =>
    have h : ¬ (Int.ofNat n < 0) := Int.not_lt.2 (Int.ofNat_nonneg n)
    apply String.ext
    simp only [decimal, decimalChars, h, if_false, decimalNat, Int.natAbs_ofNat]
    show _ = (Nat.repr n).data
    simp [Nat.repr, Nat.toDigits, toDigitsCore_eq_decDigits, List.asString]
  | negSucc n =>
    have h : Int.negSucc n < 0 := Int.negSucc_lt_zero n
    apply String.ext
    simp only [decimal, decimalChars, h, if_true, decimalNat, Int.natAbs_negSucc]
    show _ = ("-" ++ Nat.repr (n + 1)).data
    simp [Nat.repr, Nat.toDigits, toDigitsCore_eq_decDigits, List.asString]

/-- A list is cut in only one way at the first occurrence of a separator. -/
theorem append_cons_unique (c : Char) :
    ∀ (a b x y : List Char), c ∉ a → c ∉ b → a ++ c :: x = b ++ c :: y → a = b ∧ x = y := by
  intro a
  induction a with
  | nil =>
    intro b x y _ hb h
    cases b with
    | nil => exact ⟨rfl, (List.cons.inj h).2⟩
    | cons d b =>
      have : c = d := (List.cons.inj h).1
      exact absurd (this ▸ List.mem_cons_self _ _) hb
  | cons e a ih =>
    intro b x y ha hb h
    cases b with
    | nil =>
      have : e = c := (List.cons.inj h).1
      exact absurd (this ▸ List.mem_cons_self _ _) ha
    | cons d b =>
      have h1 := List.cons.inj h
      have := ih b x y (fun hc => ha (List.mem_cons_of_mem _ hc))
        (fun hc => hb (List.mem_cons_of_mem _ hc)) h1.2
      exact ⟨by rw [h1.1, this.1], this.2⟩

/-! ## What `_fut_check` computes -/

/-- The format string of `_fut_check`, interpreted on its four arguments. -/
theorem format_diagnostic (file msg : String) (line res : Int) :
    format "%s:%d: Futhark error %d: %s\n"
        [Arg.str file, Arg.int line, Arg.int res, Arg.str msg]
      = file ++ ":" ++ decimal line ++ ": Futhark error " ++ decimal res ++ ": " ++ msg
          ++ "\n" := by
  apply String.ext
  simp [format, formatChars, decimal]

theorem fut_check_zero {Ctx : Type} (hdr : ProgHeader Ctx) (w : World Ctx)
    (file : String) (line : Int) : _fut_check hdr w 0 file line = Outcome.returns w := by
  simp [_fut_check]

theorem fut_check_nonzero {Ctx : Type} (hdr : ProgHeader Ctx) (w : World Ctx) (res : Int)
    (file : String) (line : Int) (h : res ≠ 0) :
    _fut_check hdr w res file line = Outcome.exits 1
      { ctx := (hdr.futhark_context_get_error w.ctx).2
        stdout := w.stdout
        stderr := w.stderr ++ (file ++ ":" ++ decimal line ++ ": Futhark error " ++ decimal res
          ++ ": " ++ (hdr.futhark_context_get_error w.ctx).1 ++ "\n")
        get_error_calls := w.get_error_calls + 1 } := by
  simp [_fut_check, h, fprintf_stderr, get_error, format_diagnostic, EXIT_FAILURE]

/-- The characters of a diagnostic line, cut at its separators. -/
theorem diagnostic_data (file msg : String) (line res : Int) :
    (file ++ ":" ++ decimal line ++ ": Futhark error " ++ decimal res ++ ": " ++ msg
        ++ "\n").data
      = file.data ++ ':' :: (decimalChars line ++ ':' :: (" Futhark error ".data ++
          (decimalChars res ++ ':' :: ' ' :: (msg.data ++ ['\n'])))) := by
  simp [decimal]

/-- Two diagnostic lines with colon-free file names are equal only if built from the
same file, line, code and message. -/
theorem diagnostic_injective (file1 file2 msg1 msg2 : String) (line1 line2 res1 res2 : Int)
    (hf1 : ':' ∉ file1.data) (hf2 : ':' ∉ file2.data)
    (h : file1 ++ ":" ++ decimal line1 ++ ": Futhark error " ++ decimal res1 ++ ": " ++ msg1
          ++ "\n"
        = file2 ++ ":" ++ decimal line2 ++ ": Futhark error " ++ decimal res2 ++ ": " ++ msg2
          ++ "\n") :
    file1 = file2 ∧ line1 = line2 ∧ res1 = res2 ∧ msg1 = msg2 := by
  have hd := congrArg String.data h
  rw [diagnostic_data, diagnostic_data] at hd
  obtain ⟨hfile, hd⟩ := append_cons_unique ':' _ _ _ _ hf1 hf2 hd
  obtain ⟨hline, hd⟩ := append_cons_unique ':' _ _ _ _
    (decimalChars_no_colon line1) (decimalChars_no_colon line2) hd
  have hd := List.append_cancel_left hd
  obtain ⟨hres, hd⟩ := append_cons_unique ':' _ _ _ _
    (decimalChars_no_colon res1) (decimalChars_no_colon res2) hd
  have hmsg := List.append_cancel_right (List.cons.inj hd).2
  exact ⟨String.ext hfile, decimalChars_injective _ _ hline,
    decimalChars_injective _ _ hres, String.ext hmsg⟩

/-! ## The diagnostic checker: success and failure paths -/

/-- C1: with result code 0, `_fut_check` returns to its caller and leaves the whole
process state as it was (both streams and the context untouched); hence any number
of successive calls with result code 0 ends in the same state as one call or none. -/
theorem fut_check_success_no_effect {Ctx : Type} (hdr : ProgHeader Ctx) (w : World Ctx)
    (file : String) (line : Int) :
    _fut_check hdr w 0 file line = Outcome.returns w ∧
    ∀ n : Nat, fut_check_times hdr w 0 file line n = Outcome.returns w := by
  refine ⟨fut_check_zero hdr w file line, fun n => ?_⟩
  induction n with
  | zero => rfl
  | succ n ih => simp only [fut_check_times, ih, fut_check_zero]

/-- C2: for every non-zero result code `_fut_check` ends the process with exit status
`EXIT_FAILURE` (1) and does not return; and it ends the process exactly when the result
code is non-zero. -/
theorem fut_check_exits_iff_nonzero {Ctx : Type} (hdr : ProgHeader Ctx) (w : World Ctx)
    (res : Int) (file : String) (line : Int) :
    (res ≠ 0 → (_fut_check hdr w res file line).status = some EXIT_FAILURE ∧
        EXIT_FAILURE = 1 ∧ ∀ w1, _fut_check hdr w res file line ≠ Outcome.returns w1) ∧
    ((∃ s w1, _fut_check hdr w res file line = Outcome.exits s w1) ↔ res ≠ 0) := by
  by_cases h : res = 0
  · subst h
    simp [fut_check_zero]
  · rw [fut_check_nonzero hdr w res file line h]
    simp [Outcome.status, EXIT_FAILURE, h]

/-- Witness of C2 at result code -1. -/
theorem fut_check_exits_iff_nonzero_witness :
    (-1 : Int) ≠ 0 ∧
    (_fut_check stubHeader (stubWorld "boom") (-1) "foo.c" 42).status = some 1 :=
  ⟨by decide,
   ((fut_check_exits_iff_nonzero stubHeader (stubWorld "boom") (-1) "foo.c" 42).1
      (by decide)).1⟩

/-- C3: for a non-zero result code the text appended to standard error is exactly
`file ++ ":" ++ decimal line ++ ": Futhark error " ++ decimal res ++ ": " ++ msg ++ "\n"`
with `msg` the text `futhark_context_get_error` returned, standard output is left as it
was, and the exit status is 1. -/
theorem fut_check_diagnostic_text {Ctx : Type} (hdr : ProgHeader Ctx) (w : World Ctx)
    (res : Int) (file : String) (line : Int) (h : res ≠ 0) :
    (_fut_check hdr w res file line).world.stderr
      = w.stderr ++ (file ++ ":" ++ decimal line ++ ": Futhark error " ++ decimal res ++ ": "
          ++ (hdr.futhark_context_get_error w.ctx).1 ++ "\n") ∧
    (_fut_check hdr w res file line).world.stdout = w.stdout ∧
    (_fut_check hdr w res file line).status = some 1 := by
  rw [fut_check_nonzero hdr w res file line h]
  exact ⟨rfl, rfl, rfl⟩

/-- Witness of C3: `_fut_check(ctx, -1, "foo.c", 42)` with pending error text `boom`. -/
theorem fut_check_diagnostic_text_witness :
    (_fut_check stubHeader (stubWorld "boom") (-1) "foo.c" 42).world.stderr
      = "foo.c:42: Futhark error -1: boom\n" ∧
    (_fut_check stubHeader (stubWorld "boom") (-1) "foo.c" 42).world.stdout = "" ∧
    (_fut_check stubHeader (stubWorld "boom") (-1) "foo.c" 42).status = some 1 :=
  have h := fut_check_diagnostic_text stubHeader (stubWorld "boom") (-1) "foo.c" 42 (by decide)
  ⟨h.1.trans (by decide), h.2.1.trans (by decide), h.2.2⟩

/-- C9: with result code 0 the context is neither queried nor changed; with a non-zero
result code `futhark_context_get_error` is called exactly once, and the context is left
as that one call leaves it. -/
theorem fut_check_queries_context {Ctx : Type} (hdr : ProgHeader Ctx) (w : World Ctx)
    (res : Int) (file : String) (line : Int) :
    ((_fut_check hdr w 0 file line).world.ctx = w.ctx ∧
      (_fut_check hdr w 0 file line).world.get_error_calls = w.get_error_calls) ∧
    (res ≠ 0 →
      (_fut_check hdr w res file line).world.get_error_calls = w.get_error_calls + 1 ∧
      (_fut_check hdr w res file line).world.ctx = (hdr.futhark_context_get_error w.ctx).2) := by
  refine ⟨by rw [fut_check_zero]; exact ⟨rfl, rfl⟩, fun h => ?_⟩
  rw [fut_check_nonzero hdr w res file line h]
  exact ⟨rfl, rfl⟩

/-- Witness of C9: one failing check on a stub context hands out the pending text. -/
theorem fut_check_queries_context_witness :
    (_fut_check stubHeader (stubWorld "boom") (-1) "foo.c" 42).world.get_error_calls = 1 ∧
    (_fut_check stubHeader (stubWorld "boom") (-1) "foo.c" 42).world.ctx = "" :=
  have h := (fut_check_queries_context stubHeader (stubWorld "boom") (-1) "foo.c" 42).2
    (by decide)
  ⟨h.1.trans (by decide), h.2.trans (by decide)⟩

/-! ## The diagnostic line -/

/-- C4, counterexample: a last-error message holding a newline gives a diagnostic with
two newline characters, so more than one line. -/
theorem fut_check_one_line_counterexample :
    (_fut_check stubHeader (stubWorld "a\nb") (-1) "foo.c" 42).world.stderr
      = "foo.c:42: Futhark error -1: a\nb\n" ∧
    (_fut_check stubHeader (stubWorld "a\nb") (-1) "foo.c" 42).world.stderr.data.count '\n'
      = 2 := by
  decide

/-- C4, amended: for a non-zero result code the text written to standard error begins
with the file name, a colon and the decimal line number, and ends with a newline; when
neither the file name nor the last-error message holds a newline, that newline is the
only one. -/
theorem fut_check_one_line {Ctx : Type} (hdr : ProgHeader Ctx) (w : World Ctx)
    (res : Int) (file : String) (line : Int) (h : res ≠ 0) :
    ∃ text rest : String,
      (_fut_check hdr w res file line).world.stderr = w.stderr ++ text ∧
      text = file ++ ":" ++ decimal line ++ rest ∧
      text.data.getLast? = some '\n' ∧
      ('\n' ∉ file.data → '\n' ∉ (hdr.futhark_context_get_error w.ctx).1.data →
        text.data.count '\n' = 1) := by
  refine ⟨file ++ ":" ++ decimal line ++ ": Futhark error " ++ decimal res ++ ": "
      ++ (hdr.futhark_context_get_error w.ctx).1 ++ "\n",
    ": Futhark error " ++ decimal res ++ ": " ++ (hdr.futhark_context_get_error w.ctx).1
      ++ "\n", ?_, ?_, ?_, ?_⟩
  · rw [fut_check_nonzero hdr w res file line h]
    rfl
  · simp only [String.append_assoc]
  · rw [String.data_append]
    exact List.getLast?_concat _
  · intro hf hm
    rw [diagnostic_data]
    have c1 : List.count '\n' file.data = 0 := List.count_eq_zero.2 hf
    have c2 : List.count '\n' (hdr.futhark_context_get_error w.ctx).1.data = 0 :=
      List.count_eq_zero.2 hm
    have c3 : List.count '\n' (decimalChars line) = 0 :=
      List.count_eq_zero.2 (decimalChars_no_newline line)
    have c4 : List.count '\n' (decimalChars res) = 0 :=
      List.count_eq_zero.2 (decimalChars_no_newline res)
    have c5 : List.count '\n' (" Futhark error " : String).data = 0 := by decide
    simp [List.count_append, List.count_cons, c1, c2, c3, c4, c5]

/-- Witness of C4 (amended) on `_fut_check(ctx, -1, "foo.c", 42)`. -/
theorem fut_check_one_line_witness :
    ∃ text rest : String,
      (_fut_check stubHeader (stubWorld "boom") (-1) "foo.c" 42).world.stderr
        = (stubWorld "boom").stderr ++ text ∧
      text = "foo.c" ++ ":" ++ decimal 42 ++ rest ∧
      text.data.getLast? = some '\n' ∧
      ('\n' ∉ ("foo.c" : String).data →
        '\n' ∉ (stubHeader.futhark_context_get_error (stubWorld "boom").ctx).1.data →
        text.data.count '\n' = 1) :=
  fut_check_one_line stubHeader (stubWorld "boom") (-1) "foo.c" 42 (by decide)

/-- C5, counterexample: the diagnostic of `_fut_check(ctx, -1, "foo.c", 42)` has
`: Futhark error ` between line number and code; the text `: error ` occurs nowhere. -/
theorem fut_check_wire_format_counterexample :
    (_fut_check stubHeader (stubWorld "boom") (-1) "foo.c" 42).world.stderr
      = "foo.c:42: Futhark error -1: boom\n" ∧
    (_fut_check stubHeader (stubWorld "boom") (-1) "foo.c" 42).world.stderr
      ≠ "foo.c" ++ ":" ++ decimal 42 ++ ": error " ++ decimal (-1) ++ ": " ++ "boom" ∧
    (_fut_check stubHeader (stubWorld "boom") (-1) "foo.c" 42).world.stderr
      ≠ "foo.c" ++ ":" ++ decimal 42 ++ ": error " ++ decimal (-1) ++ ": " ++ "boom" ++ "\n" ∧
    ¬ (": error " : String).data <:+:
      (_fut_check stubHeader (stubWorld "boom") (-1) "foo.c" 42).world.stderr.data := by
  decide

/-- C5, amended: for a non-zero result code the diagnostic written to standard error
is `<file>:<line>: Futhark error <code>: <message>` followed by a newline, and the
process then exits with a non-zero status. -/
theorem fut_check_wire_format {Ctx : Type} (hdr : ProgHeader Ctx) (w : World Ctx)
    (res : Int) (file : String) (line : Int) (h : res ≠ 0) :
    ∃ (text : String) (s : Int),
      _fut_check hdr w res file line
        = Outcome.exits s { (get_error hdr w).2 with stderr := w.stderr ++ text } ∧
      text = file ++ ":" ++ decimal line ++ ": Futhark error " ++ decimal res ++ ": "
        ++ (get_error hdr w).1 ++ "\n" ∧
      s ≠ 0 := by
  refine ⟨_, 1, ?_, rfl, by decide⟩
  rw [fut_check_nonzero hdr w res file line h]
  rfl

/-- Witness of C5 (amended) on `_fut_check(ctx, 7, "main.c", 10)`. -/
theorem fut_check_wire_format_witness :
    ∃ (text : String) (s : Int),
      _fut_check stubHeader (stubWorld "out of memory") 7 "main.c" 10
        = Outcome.exits s { (get_error stubHeader (stubWorld "out of memory")).2 with
            stderr := (stubWorld "out of memory").stderr ++ text } ∧
      text = "main.c" ++ ":" ++ decimal 10 ++ ": Futhark error " ++ decimal 7 ++ ": "
        ++ (get_error stubHeader (stubWorld "out of memory")).1 ++ "\n" ∧
      s ≠ 0 :=
  fut_check_wire_format stubHeader (stubWorld "out of memory") 7 "main.c" 10 (by decide)

/-- C10: when the prior contents of standard error agree and neither file name contains
a colon, two failing checks that leave the same text on standard error were given the
same file, line and result code and read the same last-error message; with a colon in a
file name, two different calls can leave the same text. -/
theorem fut_check_diagnostic_parseable :
    (∀ (Ctx : Type) (hdr : ProgHeader Ctx) (w1 w2 : World Ctx) (res1 res2 : Int)
        (file1 file2 : String) (line1 line2 : Int),
        res1 ≠ 0 → res2 ≠ 0 → ':' ∉ file1.data → ':' ∉ file2.data →
        w1.stderr = w2.stderr →
        (_fut_check hdr w1 res1 file1 line1).world.stderr
          = (_fut_check hdr w2 res2 file2 line2).world.stderr →
        file1 = file2 ∧ line1 = line2 ∧ res1 = res2 ∧
          (hdr.futhark_context_get_error w1.ctx).1
            = (hdr.futhark_context_get_error w2.ctx).1) ∧
    (∃ (file1 file2 msg1 msg2 : String) (line1 line2 res1 res2 : Int),
        ':' ∈ file1.data ∧ res1 ≠ 0 ∧ res2 ≠ 0 ∧
        (_fut_check stubHeader (stubWorld msg1) res1 file1 line1).world.stderr
          = (_fut_check stubHeader (stubWorld msg2) res2 file2 line2).world.stderr ∧
        ¬ (file1 = file2 ∧ line1 = line2 ∧ res1 = res2 ∧ msg1 = msg2)) := by
  constructor
  · intro Ctx hdr w1 w2 res1 res2 file1 file2 line1 line2 h1 h2 hf1 hf2 hw h
    rw [fut_check_nonzero hdr w1 res1 file1 line1 h1,
      fut_check_nonzero hdr w2 res2 file2 line2 h2] at h
    simp only [Outcome.world, hw] at h
    have h := congrArg String.data h
    simp only [String.data_append] at h
    have h := List.append_cancel_left h
    simp only [← String.data_append] at h
    exact diagnostic_injective _ _ _ _ _ _ _ _ hf1 hf2 (String.ext h)
  · exact ⟨"a:1: Futhark error 2: b", "a", "m", "b:3: Futhark error 4: m", 3, 1, 4, 2,
      by decide, by decide, by decide, by decide, by decide⟩

/-- Witness of C10: two failing checks with equal output on colon-free file names. -/
theorem fut_check_diagnostic_parseable_witness :
    ("foo.c" : String) = "foo.c" ∧ (42 : Int) = 42 ∧ (-1 : Int) = -1 ∧
      (stubHeader.futhark_context_get_error (stubWorld "boom").ctx).1
        = (stubHeader.futhark_context_get_error (stubWorld "boom").ctx).1 :=
  fut_check_diagnostic_parseable.1 String stubHeader (stubWorld "boom") (stubWorld "boom")
    (-1) (-1) "foo.c" "foo.c" 42 42 (by decide) (by decide) (by decide) (by decide) rfl rfl

/-! ## Context setup -/

/-- C7: an interactive setup whose selection on standard input is non-numeric, or is a
number outside `[0, deviceCount)`, ends the process with a non-zero exit status; no
context has been stored for the caller. -/
theorem setup_interactive_rejects (rt : Runtime) (deviceopt : Option String)
    (w : SetupWorld)
    (h : parseIndex (firstLine w.stdin).data = none ∨
      ∃ i : Int, parseIndex (firstLine w.stdin).data = some i ∧
        (i < 0 ∨ (rt.devices.length : Int) ≤ i)) :
    ∃ (s : Int) (w1 : SetupWorld),
      lys_setup_futhark_context rt deviceopt true w = Outcome.exits s w1 ∧ s ≠ 0 ∧
      w1.futctx = w.futctx := by
  refine ⟨1, { w with futcfg := some { selection := .default } }, ?_, by decide, rfl⟩
  rcases h with h | ⟨i, h, hi⟩
  · simp [lys_setup_futhark_context, resolveDevice, h, EXIT_FAILURE]
  · have hno : ¬ (0 ≤ i ∧ i < (rt.devices.length : Int)) := by omega
    simp [lys_setup_futhark_context, resolveDevice, h, hno, EXIT_FAILURE]

/-- Witness of C7: index 2 with two devices enumerated. -/
theorem setup_interactive_rejects_witness :
    ∃ (s : Int) (w1 : SetupWorld),
      lys_setup_futhark_context twoDevices none true (freshSetup "2\n")
        = Outcome.exits s w1 ∧ s ≠ 0 ∧ w1.futctx = (freshSetup "2\n").futctx :=
  setup_interactive_rejects twoDevices none (freshSetup "2\n")
    (Or.inr ⟨2, by decide, by decide⟩)

end Lys
